import Mathlib

/-!
Verification of the banking-auth-system token lifecycle.

Shallow embedding of `src/services/auth-service/controllers/authController.js`
(signup, login, refresh, logout, generateAccessToken, generateRefreshToken)
and of the access-guard middleware `validateToken` (src/unnamed/part_001).

A signed JWT is modelled as its payload (userId, email, iat, exp) together
with the secret it was signed with: the compact JWT string is an injective
function of (payload, secret), so structural equality on the model coincides
with string equality of the wire values.  Malformed wire strings (values that
are not well-formed JWTs, or tampered ones) are the `raw` constructor, which
never verifies.  Database queries on the `refresh_tokens` table are modelled
as list operations on the list of its rows, and `bcrypt` as an abstract
compare/hash function parameter.
-/

namespace BankingAuth

/-- Subject identity carried in every JWT payload: `{ userId, email }`. -/
structure Identity where
  userId : Nat
  email : String
deriving DecidableEq, Repr

/-- A well-formed signed token: payload plus the secret used to sign it. -/
structure Token where
  userId : Nat
  email : String
  iat : Nat
  exp : Nat
  secret : String
deriving DecidableEq, Repr

/-- A credential value on the wire: a well-formed signed token, or a
malformed / tampered string that is not a valid JWT under any secret. -/
inductive Cred where
  | tok (t : Token)
  | raw (s : String)
deriving DecidableEq, Repr

/-- Outcomes of `jwt.verify`: `JsonWebTokenError` (bad signature / not a JWT)
or `TokenExpiredError`. -/
inductive VerifyError where
  | signatureInvalid
  | expired
deriving DecidableEq, Repr

/-- Model of `jwt.verify(value, key)` at clock time `now`: the signature is checked
first (the `jsonwebtoken` library verifies the signature before the claims),
then expiry (`TokenExpiredError` when `now ≥ exp`); on success the embedded
payload identity is returned. -/
def verify (c : Cred) (key : String) (now : Nat) : Except VerifyError Identity :=
  match c with
  | .raw _ => .error .signatureInvalid
  | .tok t =>
    if t.secret ≠ key then .error .signatureInvalid
    else if t.exp ≤ now then .error .expired
    else .ok ⟨t.userId, t.email⟩

/-- Process-wide configuration: the two signing secrets and the two TTLs
(`JWT_SECRET`, `JWT_REFRESH_SECRET`, `JWT_EXPIRES_IN`, `JWT_REFRESH_EXPIRES_IN`). -/
structure Config where
  jwtSecret : String
  jwtRefreshSecret : String
  accessTTL : Nat
  refreshTTL : Nat
deriving DecidableEq, Repr

/-- Model of `generateAccessToken(userId, email)`: sign `{userId, email}` with
`JWT_SECRET`, expiring `JWT_EXPIRES_IN` after issuance. -/
def generateAccessToken (cfg : Config) (now : Nat) (userId : Nat) (email : String) : Token :=
  ⟨userId, email, now, now + cfg.accessTTL, cfg.jwtSecret⟩

/-- Model of `generateRefreshToken(userId, email)`: sign `{userId, email}` with
`JWT_REFRESH_SECRET`, expiring `JWT_REFRESH_EXPIRES_IN` after issuance. -/
def generateRefreshToken (cfg : Config) (now : Nat) (userId : Nat) (email : String) : Token :=
  ⟨userId, email, now, now + cfg.refreshTTL, cfg.jwtRefreshSecret⟩

/-- A row of the `refresh_tokens` table: `(user_id, token)`. -/
structure RefreshRow where
  user_id : Nat
  token : Cred
deriving DecidableEq, Repr

/-- The `refresh_tokens` table, as its list of rows. -/
abbrev RefreshStore := List RefreshRow

/-- The query `INSERT INTO refresh_tokens (user_id, token) VALUES ($1, $2)`. -/
def insertToken (db : RefreshStore) (uid : Nat) (v : Cred) : RefreshStore :=
  db ++ [⟨uid, v⟩]

/-- Whether `SELECT * FROM refresh_tokens WHERE token = $1 AND user_id = $2`
returns at least one row. -/
def tokenExists (db : RefreshStore) (v : Cred) (uid : Nat) : Bool :=
  db.any (fun r => r.token == v && r.user_id == uid)

/-- The query `DELETE FROM refresh_tokens WHERE token = $1`. -/
def deleteToken (db : RefreshStore) (v : Cred) : RefreshStore :=
  db.filter (fun r => !(r.token == v))

/-- Failures of the `refresh` endpoint; every one is sent with HTTP 401. -/
inductive RefreshError where
  | tokenRequired
  | invalidOrExpired
  | invalidRefreshToken
deriving DecidableEq, Repr

/-- HTTP status attached to each `refresh` failure. -/
def RefreshError.status : RefreshError → Nat
  | .tokenRequired => 401
  | .invalidOrExpired => 401
  | .invalidRefreshToken => 401

/-- Response body message of each `refresh` failure. -/
def RefreshError.message : RefreshError → String
  | .tokenRequired => "Refresh token required"
  | .invalidOrExpired => "Invalid or expired refresh token"
  | .invalidRefreshToken => "Invalid refresh token"

/-- The `refresh` endpoint.  `body` is `req.body.refreshToken` (absent when
the field is missing).  On success it returns the freshly minted access token
and the resulting `refresh_tokens` table (which the source never writes to on
this path). -/
def refresh (cfg : Config) (db : RefreshStore) (body : Option Cred) (now : Nat) :
    Except RefreshError (Token × RefreshStore) :=
  match body with
  | none => .error .tokenRequired
  | some v =>
    match verify v cfg.jwtRefreshSecret now with
    | .error _ => .error .invalidOrExpired
    | .ok decoded =>
      if tokenExists db v decoded.userId then
        .ok (generateAccessToken cfg now decoded.userId decoded.email, db)
      else
        .error .invalidRefreshToken

/-- Failure of the `logout` endpoint: missing body field, HTTP 400. -/
inductive LogoutError where
  | tokenRequired
deriving DecidableEq, Repr

/-- The `logout` endpoint: deletes every `refresh_tokens` row whose token
column equals the presented value, then replies 200 `Logout successful`.
No cryptographic verification of the value is performed. -/
def logout (db : RefreshStore) (body : Option Cred) :
    Except LogoutError (String × RefreshStore) :=
  match body with
  | none => .error .tokenRequired
  | some v => .ok ("Logout successful", deleteToken db v)

/-- Rejection codes of the access-guard middleware `validateToken`;
every one is sent with HTTP 401. -/
inductive GuardError where
  | missingCredential
  | malformedCredential
  | credentialInvalid
  | credentialExpired
deriving DecidableEq, Repr

/-- HTTP status attached to each guard rejection. -/
def GuardError.status : GuardError → Nat
  | .missingCredential => 401
  | .malformedCredential => 401
  | .credentialInvalid => 401
  | .credentialExpired => 401

/-- Response body message of each guard rejection. -/
def GuardError.message : GuardError → String
  | .missingCredential => "Access token required"
  | .malformedCredential => "Invalid token format"
  | .credentialInvalid => "Invalid token"
  | .credentialExpired => "Token expired"

/-- JavaScript `header.split(' ')` on the character list: split on every
single space character. -/
def splitSp : List Char → List (List Char)
  | [] => [[]]
  | c :: cs =>
    match splitSp cs with
    | [] => [[]]
    | w :: ws => if c = ' ' then [] :: w :: ws else (c :: w) :: ws

/-- Model of `authHeader.split(' ')[1]`: `none` models JavaScript `undefined` when
fewer than two fields result. -/
def authTokenOf (h : String) : Option String :=
  match splitSp h.data with
  | _ :: w :: _ => some (String.mk w)
  | _ => none

/-- The header-parsing phase of `validateToken`: 401 `Access token required`
when no `authorization` header is present, 401 `Invalid token format` when
`split(' ')[1]` is `undefined` or the empty string (both falsy). -/
def extractBearer (authHeader : Option String) : Except GuardError String :=
  match authHeader with
  | none => .error .missingCredential
  | some h =>
    match authTokenOf h with
    | none => .error .malformedCredential
    | some tk => if tk = "" then .error .malformedCredential else .ok tk

/-- The `validateToken` middleware (access guard).  `decode` maps the wire
substring extracted from the header to the credential value it denotes (the
parsing half of `jwt.verify`); verification uses `JWT_SECRET` only.  On
success the decoded identity is attached to the request (`req.user`).  The
middleware takes no `refresh_tokens` store: the source never queries the
database. -/
def validateToken (decode : String → Cred) (jwtSecret : String) (now : Nat)
    (authHeader : Option String) : Except GuardError Identity :=
  match extractBearer authHeader with
  | .error e => .error e
  | .ok tk =>
    match verify (decode tk) jwtSecret now with
    | .error .signatureInvalid => .error .credentialInvalid
    | .error .expired => .error .credentialExpired
    | .ok decoded => .ok decoded

/-- A row of the `users` table. -/
structure User where
  id : Nat
  email : String
  password : String
  first_name : String
  last_name : String
deriving DecidableEq, Repr

/-- The `users` table, as its list of rows. -/
abbrev Users := List User

/-- The query `SELECT * FROM users WHERE email = $1`, taking `rows[0]`. -/
def findByEmail (users : Users) (email : String) : Option User :=
  (users.filter (fun u => u.email == email)).head?

/-- Failures of the `login` endpoint. -/
inductive LoginError where
  | fieldsRequired
  | invalidCredentials
  | internalError
deriving DecidableEq, Repr

/-- HTTP status attached to each `login` failure. -/
def LoginError.status : LoginError → Nat
  | .fieldsRequired => 400
  | .invalidCredentials => 401
  | .internalError => 500

/-- Response body message of each `login` failure. -/
def LoginError.message : LoginError → String
  | .fieldsRequired => "Email and password are required"
  | .invalidCredentials => "Invalid credentials"
  | .internalError => "Internal server error"

/-- Successful issuance result: the 200/201 response body plus the
`refresh_tokens` table after the `INSERT`. -/
structure IssueOk where
  user : User
  accessToken : Token
  refreshToken : Token
  db : RefreshStore
deriving DecidableEq, Repr

/-- The `login` endpoint.  `compare` is `bcrypt.compare`; `persistOk` models
whether the `INSERT INTO refresh_tokens` query succeeds (when it throws, the
catch block replies 500 `Internal server error` and no tokens are sent). -/
def login (compare : String → String → Bool) (cfg : Config) (now : Nat)
    (users : Users) (db : RefreshStore) (persistOk : Bool)
    (email password : Option String) : Except LoginError IssueOk :=
  match email, password with
  | some e, some pw =>
    if e = "" ∨ pw = "" then .error .fieldsRequired
    else
      match findByEmail users e with
      | none => .error .invalidCredentials
      | some user =>
        if compare pw user.password = false then .error .invalidCredentials
        else
          let accessToken := generateAccessToken cfg now user.id user.email
          let refreshToken := generateRefreshToken cfg now user.id user.email
          if persistOk then
            .ok ⟨user, accessToken, refreshToken, insertToken db user.id (.tok refreshToken)⟩
          else .error .internalError
  | _, _ => .error .fieldsRequired

/-- Failures of the `signup` endpoint. -/
inductive SignupError where
  | fieldsRequired
  | userExists
  | internalError
deriving DecidableEq, Repr

/-- HTTP status attached to each `signup` failure. -/
def SignupError.status : SignupError → Nat
  | .fieldsRequired => 400
  | .userExists => 409
  | .internalError => 500

/-- The `signup` endpoint.  `hash` is `bcrypt.hash`, `nextId` the id the
database assigns to the inserted row (`RETURNING id`); `persistOk` models the
`INSERT INTO refresh_tokens` query as in `login`. -/
def signup (hash : String → String) (cfg : Config) (now : Nat) (nextId : Nat)
    (users : Users) (db : RefreshStore) (persistOk : Bool)
    (email password firstName lastName : Option String) :
    Except SignupError IssueOk :=
  match email, password, firstName, lastName with
  | some e, some pw, some fn, some ln =>
    if e = "" ∨ pw = "" ∨ fn = "" ∨ ln = "" then .error .fieldsRequired
    else
      match findByEmail users e with
      | some _ => .error .userExists
      | none =>
        let user : User := ⟨nextId, e, hash pw, fn, ln⟩
        let accessToken := generateAccessToken cfg now user.id user.email
        let refreshToken := generateRefreshToken cfg now user.id user.email
        if persistOk then
          .ok ⟨user, accessToken, refreshToken, insertToken db user.id (.tok refreshToken)⟩
        else .error .internalError
  | _, _, _, _ => .error .fieldsRequired

/-!
Concrete fixtures used by witness theorems.
-/

/-- Configuration used by concrete witnesses: access secret `asec` (TTL 15),
refresh secret `rsec` (TTL 7). -/
def cfg0 : Config := ⟨"asec", "rsec", 15, 7⟩

/-- A refresh-class token for subject 1 issued at time 0 under `cfg0`. -/
def t0 : Token := ⟨1, "a@x.com", 0, 7, "rsec"⟩

/-- A refresh store holding exactly the record for `t0`, owned by subject 1. -/
def db0 : RefreshStore := [⟨1, .tok t0⟩]

/-- The access-class token minted for subject 1 at time 0 under `cfg0`. -/
def a0 : Token := ⟨1, "a@x.com", 0, 15, "asec"⟩

/-- The `users` row for subject 1 used by concrete witnesses. -/
def u0 : User := ⟨1, "a@x.com", "hpw", "Ada", "L"⟩

/-- A one-row `users` table holding `u0`. -/
def users0 : Users := [u0]

/-- Model of `bcrypt.compare` for concrete witnesses: the stored hash matches
exactly one password, its own text. -/
def compareEq (pw stored : String) : Bool := pw == stored

/-- Model of `bcrypt.hash` for concrete witnesses. -/
def hash0 (s : String) : String := "h:" ++ s

/-- JWT decoding used by concrete witnesses: the wire string `atk` denotes
the access token `a0`; anything else is not a well-formed JWT. -/
def decode0 (s : String) : Cred := if s = "atk" then .tok a0 else .raw s

/-- JWT decoding used by the C7 witness: the wire string `rtk` denotes the
refresh token `t0`; anything else is not a well-formed JWT. -/
def decodeR (s : String) : Cred := if s = "rtk" then .tok t0 else .raw s

/-- The issuance result of logging in `u0` at time 0 under `cfg0`. -/
def issue0 : IssueOk := ⟨u0, a0, t0, db0⟩

/-- The issuance result of signing subject 2 up at time 0 under `cfg0`. -/
def signup0 : IssueOk :=
  ⟨⟨2, "b@x.com", "h:pw", "Bea", "K"⟩, ⟨2, "b@x.com", 0, 15, "asec"⟩,
   ⟨2, "b@x.com", 0, 7, "rsec"⟩, [⟨2, .tok ⟨2, "b@x.com", 0, 7, "rsec"⟩⟩]⟩

/-- Stated from the wording of the claim, for comparison with the parse the
source performs: a
header literally of the shape `Bearer <token>` with a nonempty token. -/
def bearerShape (h : String) : Prop := ∃ tk, tk ≠ "" ∧ h = "Bearer " ++ tk

/-!
Helper lemmas about the refresh store and verification, and inversion
lemmas for successful issuance.
-/

theorem tokenExists_deleteToken (db : RefreshStore) (v : Cred) (uid : Nat) :
    tokenExists (deleteToken db v) v uid = false := by
  simp only [tokenExists, deleteToken, List.any_eq_false, List.mem_filter]
  intro x hx
  simp_all

theorem tokenExists_deleteToken_ne (db : RefreshStore) (v w : Cred) (uid : Nat)
    (h : w ≠ v) :
    tokenExists (deleteToken db v) w uid = tokenExists db w uid := by
  induction db with
  | nil => rfl
  | cons r rs ih =>
    simp only [deleteToken, List.filter_cons, tokenExists, List.any_cons] at *
    by_cases hv : r.token = v
    · have hw : (r.token == w) = false := by simp [hv, Ne.symm h]
      simp [hv, hw, ih, Ne.symm h]
    · simp [hv, ih]

theorem deleteToken_idem (db : RefreshStore) (v : Cred) :
    deleteToken (deleteToken db v) v = deleteToken db v := by
  simp [deleteToken, List.filter_filter]

theorem tokenExists_insertToken_self (db : RefreshStore) (uid : Nat) (v : Cred) :
    tokenExists (insertToken db uid v) v uid = true := by
  simp [tokenExists, insertToken, List.any_eq_true]

theorem tokenExists_insertToken_mono (db : RefreshStore) (uid uid' : Nat) (v w : Cred)
    (h : tokenExists db w uid' = true) :
    tokenExists (insertToken db uid v) w uid' = true := by
  simp only [tokenExists, insertToken, List.any_append, Bool.or_eq_true]
  exact Or.inl h

theorem verify_refresh_ok (cfg : Config) (t : Token) (now : Nat)
    (hsig : t.secret = cfg.jwtRefreshSecret) (hexp : now < t.exp) :
    verify (.tok t) cfg.jwtRefreshSecret now = .ok ⟨t.userId, t.email⟩ := by
  simp [verify, hsig, Nat.not_le.mpr hexp]

theorem verify_ok_congr (v : Cred) (k : String) (n n' : Nat) (i i' : Identity)
    (h : verify v k n = .ok i) (h' : verify v k n' = .ok i') : i = i' := by
  cases v with
  | raw s => simp [verify] at h
  | tok t =>
    by_cases hk : t.secret = k
    · by_cases hn : t.exp ≤ n
      · simp [verify, hk, hn] at h
      · by_cases hn' : t.exp ≤ n'
        · simp [verify, hk, hn'] at h'
        · simp [verify, hk, hn, hn'] at h h'
          rw [← h, ← h']
    · simp [verify, hk] at h

theorem login_ok_inv (compare : String → String → Bool) (cfg : Config) (now : Nat)
    (users : Users) (db : RefreshStore) (p : Bool)
    (email password : Option String) (r : IssueOk)
    (h : login compare cfg now users db p email password = .ok r) :
    ∃ e pw u, email = some e ∧ password = some pw ∧
      findByEmail users e = some u ∧ compare pw u.password = true ∧ p = true ∧
      r = ⟨u, generateAccessToken cfg now u.id u.email,
           generateRefreshToken cfg now u.id u.email,
           insertToken db u.id (.tok (generateRefreshToken cfg now u.id u.email))⟩ := by
  cases email with
  | none => simp [login] at h
  | some e =>
    cases password with
    | none => simp [login] at h
    | some pw =>
      simp only [login] at h
      split at h
      · simp at h
      · split at h
        · simp at h
        · rename_i user huser
          split at h
          · simp at h
          · rename_i hcmp
            split at h
            · rename_i hp
              refine ⟨e, pw, user, rfl, rfl, huser, ?_, hp, ?_⟩
              · simpa using hcmp
              · simpa using h.symm
            · simp at h

theorem signup_ok_inv (hash : String → String) (cfg : Config) (now nextId : Nat)
    (users : Users) (db : RefreshStore) (p : Bool)
    (email password firstName lastName : Option String) (r : IssueOk)
    (h : signup hash cfg now nextId users db p email password firstName lastName = .ok r) :
    ∃ e pw fn ln, email = some e ∧ password = some pw ∧
      firstName = some fn ∧ lastName = some ln ∧
      findByEmail users e = none ∧ p = true ∧
      r = ⟨⟨nextId, e, hash pw, fn, ln⟩,
           generateAccessToken cfg now nextId e,
           generateRefreshToken cfg now nextId e,
           insertToken db nextId (.tok (generateRefreshToken cfg now nextId e))⟩ := by
  cases email with
  | none => simp [signup] at h
  | some e =>
    cases password with
    | none => simp [signup] at h
    | some pw =>
      cases firstName with
      | none => simp [signup] at h
      | some fn =>
        cases lastName with
        | none => simp [signup] at h
        | some ln =>
          simp only [signup] at h
          split at h
          · simp at h
          · split at h
            · simp at h
            · rename_i hfree
              split at h
              · rename_i hp
                refine ⟨e, pw, fn, ln, rfl, rfl, rfl, rfl, hfree, hp, ?_⟩
                simpa using h.symm
              · simp at h

/-!
Claim theorems.
-/

/-- Claim C1: for a cryptographically valid refresh credential (refresh-class
signature, unexpired), renewal succeeds iff a matching Refresh Record exists
in the store; terminate (logout) deletes every record for the value, and a
subsequent renew with that same value fails with `InvalidRefresh`
(`Invalid refresh token`, HTTP 401) even though signature and expiry are
still individually valid. -/
theorem refresh_usable_iff_record_and_revoked_after_terminate
    (cfg : Config) (db : RefreshStore) (t : Token) (now : Nat)
    (hsig : t.secret = cfg.jwtRefreshSecret) (hexp : now < t.exp) :
    (refresh cfg db (some (.tok t)) now).isOk = tokenExists db (.tok t) t.userId
    ∧ logout db (some (.tok t)) = .ok ("Logout successful", deleteToken db (.tok t))
    ∧ refresh cfg (deleteToken db (.tok t)) (some (.tok t)) now
        = .error .invalidRefreshToken
    ∧ RefreshError.status .invalidRefreshToken = 401 := by
  have hv := verify_refresh_ok cfg t now hsig hexp
  refine ⟨?_, rfl, ?_, rfl⟩
  · cases hdb : tokenExists db (.tok t) t.userId <;>
      simp [refresh, hv, hdb, Except.isOk, Except.toBool]
  · simp [refresh, hv, tokenExists_deleteToken]

/-- Claim C1 witness at `cfg0`, `db0`, `t0`, time 3. -/
theorem refresh_usable_iff_record_and_revoked_after_terminate_witness :
    t0.secret = cfg0.jwtRefreshSecret ∧ 3 < t0.exp ∧
    ((refresh cfg0 db0 (some (.tok t0)) 3).isOk = tokenExists db0 (.tok t0) t0.userId
     ∧ logout db0 (some (.tok t0)) = .ok ("Logout successful", deleteToken db0 (.tok t0))
     ∧ refresh cfg0 (deleteToken db0 (.tok t0)) (some (.tok t0)) 3
         = .error .invalidRefreshToken
     ∧ RefreshError.status .invalidRefreshToken = 401) :=
  ⟨rfl, by decide,
    refresh_usable_iff_record_and_revoked_after_terminate cfg0 db0 t0 3 rfl (by decide)⟩

/-- Claim C2: for every valid subject identity, issuing a session (login) and then
immediately running the access guard on the returned access credential — with
the same access secret, before expiry, the header carrying the returned
token — succeeds and attaches exactly the issued identity (userId, email) to
the request. -/
theorem issue_then_guard_same_identity (compare : String → String → Bool)
    (cfg : Config) (now now2 : Nat) (users : Users) (db : RefreshStore)
    (email password : Option String) (r : IssueOk)
    (hlogin : login compare cfg now users db true email password = .ok r)
    (decode : String → Cred) (hdr s : String)
    (hsplit : authTokenOf hdr = some s) (hs : s ≠ "")
    (hdec : decode s = .tok r.accessToken)
    (hnow : now2 < now + cfg.accessTTL) :
    validateToken decode cfg.jwtSecret now2 (some hdr) = .ok ⟨r.user.id, r.user.email⟩ := by
  obtain ⟨e, pw, u, -, -, -, -, -, hr⟩ :=
    login_ok_inv compare cfg now users db true email password r hlogin
  subst hr
  simp [validateToken, extractBearer, hsplit, hs, hdec, generateAccessToken, verify,
        Nat.not_le.mpr hnow]

/-- Claim C2 witness: log `u0` in at time 0, guard the returned access token at
time 3 behind the header `Bearer atk`. -/
theorem issue_then_guard_same_identity_witness :
    login compareEq cfg0 0 users0 [] true (some "a@x.com") (some "hpw") = .ok issue0
    ∧ validateToken decode0 cfg0.jwtSecret 3 (some "Bearer atk") = .ok ⟨1, "a@x.com"⟩ := by
  have hlogin : login compareEq cfg0 0 users0 [] true (some "a@x.com") (some "hpw")
      = .ok issue0 := by
    simp [login, findByEmail, users0, u0, compareEq, issue0, generateAccessToken,
          generateRefreshToken, insertToken, cfg0, a0, t0, db0]
  exact ⟨hlogin,
    issue_then_guard_same_identity compareEq cfg0 0 3 users0 [] _ _ _ hlogin decode0
      "Bearer atk" "atk" (by decide) (by decide) rfl (by decide)⟩

/-- Claim C3: renew replies 401 `Invalid or expired refresh token` whenever
`jwt.verify` fails (bad signature or expired), replies 401
`Invalid refresh token` when no store row matches BOTH the credential value
and the decoded subject id — in particular when every row carrying the value
belongs to a different subject — and succeeds exactly when verification
passes and such a row exists. -/
theorem renew_requires_verify_and_record (cfg : Config) (db : RefreshStore)
    (v : Cred) (now : Nat) :
    (∀ e, verify v cfg.jwtRefreshSecret now = .error e →
        refresh cfg db (some v) now = .error .invalidOrExpired)
    ∧ (∀ idt, verify v cfg.jwtRefreshSecret now = .ok idt →
        tokenExists db v idt.userId = false →
        refresh cfg db (some v) now = .error .invalidRefreshToken)
    ∧ (∀ idt, verify v cfg.jwtRefreshSecret now = .ok idt →
        tokenExists db v idt.userId = true →
        refresh cfg db (some v) now
          = .ok (generateAccessToken cfg now idt.userId idt.email, db))
    ∧ (∀ idt, verify v cfg.jwtRefreshSecret now = .ok idt →
        (∀ row ∈ db, row.token = v → row.user_id ≠ idt.userId) →
        refresh cfg db (some v) now = .error .invalidRefreshToken)
    ∧ RefreshError.status .invalidOrExpired = 401
    ∧ RefreshError.status .invalidRefreshToken = 401 := by
  refine ⟨?_, ?_, ?_, ?_, rfl, rfl⟩
  · intro e he; simp [refresh, he]
  · intro idt hv hex; simp [refresh, hv, hex]
  · intro idt hv hex; simp [refresh, hv, hex]
  · intro idt hv hrow
    have hex : tokenExists db v idt.userId = false := by
      simp only [tokenExists, List.any_eq_false]
      intro r hr
      simpa using hrow r hr
    simp [refresh, hv, hex]

/-- Claim C3 witness: a record with matching value but subject 2 does not authorize
renewal for subject 1; an expired credential is rejected up front. -/
theorem renew_requires_verify_and_record_witness :
    refresh cfg0 [⟨2, .tok t0⟩] (some (.tok t0)) 3 = .error .invalidRefreshToken
    ∧ refresh cfg0 db0 (some (.tok t0)) 7 = .error .invalidOrExpired :=
  ⟨(renew_requires_verify_and_record cfg0 [⟨2, .tok t0⟩] (.tok t0) 3).2.2.2.1
      ⟨1, "a@x.com"⟩ (by simp [verify, t0, cfg0]) (by decide),
   (renew_requires_verify_and_record cfg0 db0 (.tok t0) 7).1 .expired
      (by simp [verify, t0, cfg0])⟩

/-- Claim C4: a successful renew returns a fresh access credential (signed with the
access secret) and leaves the `refresh_tokens` table unchanged — the refresh
credential is not rotated, re-inserted, or removed — so repeating renew with
the same value succeeds again, at the same or any later time at which the
credential still verifies (i.e. until it expires or is revoked). -/
theorem renew_no_rotation (cfg : Config) (db : RefreshStore) (v : Cred) (now : Nat)
    (t : Token) (db' : RefreshStore)
    (h : refresh cfg db (some v) now = .ok (t, db')) :
    db' = db ∧ t.secret = cfg.jwtSecret
    ∧ refresh cfg db' (some v) now = .ok (t, db')
    ∧ ∀ now2 idt, verify v cfg.jwtRefreshSecret now2 = .ok idt →
        refresh cfg db' (some v) now2
          = .ok (generateAccessToken cfg now2 idt.userId idt.email, db) := by
  simp only [refresh] at h
  split at h
  · simp at h
  · rename_i decoded hv
    split at h
    · rename_i hex
      obtain ⟨ht, hdb⟩ : t = generateAccessToken cfg now decoded.userId decoded.email
          ∧ db' = db := by
        have := h
        simp [Prod.ext_iff] at this
        exact ⟨this.1.symm, this.2.symm⟩
      subst ht hdb
      refine ⟨rfl, rfl, ?_, ?_⟩
      · simp [refresh, hv, hex]
      · intro now2 idt hv2
        have hid : idt = decoded := verify_ok_congr v cfg.jwtRefreshSecret now2 now idt decoded hv2 hv
        subst hid
        simp [refresh, hv2, hex]
    · simp at h

/-- Claim C4 witness: renew `t0` against `db0` at time 3, then again at time 5. -/
theorem renew_no_rotation_witness :
    refresh cfg0 db0 (some (.tok t0)) 3 = .ok (⟨1, "a@x.com", 3, 18, "asec"⟩, db0)
    ∧ refresh cfg0 db0 (some (.tok t0)) 5 = .ok (⟨1, "a@x.com", 5, 20, "asec"⟩, db0) := by
  have hconc : refresh cfg0 db0 (some (.tok t0)) 3
      = .ok (⟨1, "a@x.com", 3, 18, "asec"⟩, db0) := by
    simp [refresh, verify, tokenExists, generateAccessToken, cfg0, db0, t0]
  exact ⟨hconc,
    (renew_no_rotation cfg0 db0 (.tok t0) 3 _ _ hconc).2.2.2 5 ⟨1, "a@x.com"⟩
      (by simp [verify, t0, cfg0])⟩

/-- Claim C5 counterexample: the guard never inspects the scheme word, only
`split(' ')[1]`.  The header `Basic atk` cannot be parsed into the
`Bearer <token>` shape, yet the guard does not reject it as
`MalformedCredential`: it extracts the second word and verifies it — here the
word is a valid access token, so the guard even succeeds and attaches the
identity; with a non-JWT second word (`Basic junk`) it rejects with
`CredentialInvalid` instead. -/
theorem guard_scheme_not_checked :
    ¬ bearerShape "Basic atk"
    ∧ validateToken decode0 cfg0.jwtSecret 3 (some "Basic atk") = .ok ⟨1, "a@x.com"⟩
    ∧ ¬ bearerShape "Basic junk"
    ∧ validateToken (fun s => .raw s) cfg0.jwtSecret 3 (some "Basic junk")
        = .error .credentialInvalid := by
  have hshape : ∀ s : String, s.data.head? = some 'B' → s.data.tail.head? ≠ some 'e' →
      ¬ bearerShape s := by
    rintro s - hs2 ⟨tk, -, htk⟩
    apply hs2
    have h2 := congrArg String.data htk
    rw [String.data_append] at h2
    rw [h2]
    rfl
  refine ⟨hshape _ rfl (by decide), ?_, hshape _ rfl (by decide), ?_⟩
  · simp [validateToken, extractBearer,
          show authTokenOf "Basic atk" = some "atk" from by decide, decode0, a0,
          verify, cfg0]
  · simp [validateToken, extractBearer,
          show authTokenOf "Basic junk" = some "junk" from by decide, verify]

/-- Claim C5 (amended): the guard rejects 401 `Access token required` when no
authorization header is present; 401 `Invalid token format` when
`split(' ')[1]` yields no second field or an empty one (the scheme word
itself is not inspected); otherwise the extracted value is verified against
the access secret only — 401 `Token expired` on expiry, 401 `Invalid token`
on a bad signature, and on success the decoded identity is attached to the
request.  The middleware takes no refresh store at all, mirroring the source,
which never queries the database. -/
theorem guard_branches (decode : String → Cred) (secret : String) (now : Nat) :
    validateToken decode secret now none = .error .missingCredential
    ∧ (∀ h, authTokenOf h = none →
        validateToken decode secret now (some h) = .error .malformedCredential)
    ∧ (∀ h, authTokenOf h = some "" →
        validateToken decode secret now (some h) = .error .malformedCredential)
    ∧ (∀ h s, authTokenOf h = some s → s ≠ "" →
        ((verify (decode s) secret now = .error .expired →
            validateToken decode secret now (some h) = .error .credentialExpired)
         ∧ (verify (decode s) secret now = .error .signatureInvalid →
            validateToken decode secret now (some h) = .error .credentialInvalid)
         ∧ (∀ idt, verify (decode s) secret now = .ok idt →
            validateToken decode secret now (some h) = .ok idt)))
    ∧ (∀ e : GuardError, e.status = 401) := by
  refine ⟨rfl, ?_, ?_, ?_, ?_⟩
  · intro h hh; simp [validateToken, extractBearer, hh]
  · intro h hh; simp [validateToken, extractBearer, hh]
  · intro h s hh hs
    refine ⟨?_, ?_, ?_⟩
    · intro hv; simp [validateToken, extractBearer, hh, hs, hv]
    · intro hv; simp [validateToken, extractBearer, hh, hs, hv]
    · intro idt hv; simp [validateToken, extractBearer, hh, hs, hv]
  · intro e; cases e <;> rfl

/-- Claim C5 witness: every branch exercised at concrete headers under `cfg0`. -/
theorem guard_branches_witness :
    validateToken decode0 cfg0.jwtSecret 3 none = .error .missingCredential
    ∧ validateToken decode0 cfg0.jwtSecret 3 (some "Bearerx") = .error .malformedCredential
    ∧ validateToken decode0 cfg0.jwtSecret 3 (some "Bearer ") = .error .malformedCredential
    ∧ validateToken decode0 cfg0.jwtSecret 20 (some "Bearer atk") = .error .credentialExpired
    ∧ validateToken decode0 cfg0.jwtSecret 3 (some "Bearer junk") = .error .credentialInvalid
    ∧ validateToken decode0 cfg0.jwtSecret 3 (some "Bearer atk") = .ok ⟨1, "a@x.com"⟩ :=
  ⟨(guard_branches decode0 cfg0.jwtSecret 3).1,
   (guard_branches decode0 cfg0.jwtSecret 3).2.1 "Bearerx" (by decide),
   (guard_branches decode0 cfg0.jwtSecret 3).2.2.1 "Bearer " (by decide),
   ((guard_branches decode0 cfg0.jwtSecret 20).2.2.2.1 "Bearer atk" "atk" (by decide)
      (by decide)).1 (by simp [decode0, a0, verify, cfg0]),
   ((guard_branches decode0 cfg0.jwtSecret 3).2.2.2.1 "Bearer junk" "junk" (by decide)
      (by decide)).2.1 (by simp [decode0, verify]),
   ((guard_branches decode0 cfg0.jwtSecret 3).2.2.2.1 "Bearer atk" "atk" (by decide)
      (by decide)).2.2 ⟨1, "a@x.com"⟩ (by simp [decode0, a0, verify, cfg0])⟩

/-- Claim C6: when the `INSERT INTO refresh_tokens` persistence step fails, login
and signup each fail as a whole with 500 `Internal server error`; the
already-minted access and refresh credentials are not returned (the error
result carries no tokens). -/
theorem persistence_failure_fails_whole (compare : String → String → Bool)
    (hash : String → String) (cfg : Config) (now nextId : Nat)
    (users users2 : Users) (db : RefreshStore)
    (e pw e2 pw2 fn ln : String) (u : User)
    (he : e ≠ "") (hpw : pw ≠ "")
    (hfound : findByEmail users e = some u) (hcmp : compare pw u.password = true)
    (he2 : e2 ≠ "") (hpw2 : pw2 ≠ "") (hfn : fn ≠ "") (hln : ln ≠ "")
    (hfree : findByEmail users2 e2 = none) :
    login compare cfg now users db false (some e) (some pw) = .error .internalError
    ∧ LoginError.status .internalError = 500
    ∧ signup hash cfg now nextId users2 db false (some e2) (some pw2) (some fn) (some ln)
        = .error .internalError
    ∧ SignupError.status .internalError = 500 := by
  refine ⟨?_, rfl, ?_, rfl⟩
  · simp [login, he, hpw, hfound, hcmp]
  · simp [signup, he2, hpw2, hfn, hln, hfree]

/-- Claim C6 witness: persistence failure at the login of `u0` and at a fresh signup. -/
theorem persistence_failure_fails_whole_witness :
    login compareEq cfg0 0 users0 [] false (some "a@x.com") (some "hpw")
      = .error .internalError
    ∧ signup (fun s => s) cfg0 0 2 [] [] false (some "b@x.com") (some "pw")
        (some "Bea") (some "K") = .error .internalError :=
  ⟨(persistence_failure_fails_whole compareEq (fun s => s) cfg0 0 2 users0 [] []
      "a@x.com" "hpw" "b@x.com" "pw" "Bea" "K" u0 (by decide) (by decide)
      (by decide) (by decide) (by decide) (by decide) (by decide) (by decide) rfl).1,
   (persistence_failure_fails_whole compareEq (fun s => s) cfg0 0 2 users0 [] []
      "a@x.com" "hpw" "b@x.com" "pw" "Bea" "K" u0 (by decide) (by decide)
      (by decide) (by decide) (by decide) (by decide) (by decide) (by decide) rfl).2.2.1⟩

/-- Claim C7: with distinct access-class and refresh-class secrets, a credential
signed under one class fails verification under the other with
`SignatureInvalid`: a refresh credential presented to the access guard is
rejected as `CredentialInvalid` (`Invalid token`, 401), and an access
credential presented to renew is rejected as `InvalidRefresh`
(`Invalid or expired refresh token`, 401). -/
theorem cross_key_class_rejection (cfg : Config)
    (hne : cfg.jwtSecret ≠ cfg.jwtRefreshSecret)
    (db : RefreshStore) (now iat uid : Nat) (email : String)
    (decode : String → Cred) (hdr s : String)
    (hsplit : authTokenOf hdr = some s) (hs : s ≠ "")
    (hdec : decode s = .tok (generateRefreshToken cfg iat uid email)) :
    verify (.tok (generateRefreshToken cfg iat uid email)) cfg.jwtSecret now
      = .error .signatureInvalid
    ∧ validateToken decode cfg.jwtSecret now (some hdr) = .error .credentialInvalid
    ∧ verify (.tok (generateAccessToken cfg iat uid email)) cfg.jwtRefreshSecret now
      = .error .signatureInvalid
    ∧ refresh cfg db (some (.tok (generateAccessToken cfg iat uid email))) now
      = .error .invalidOrExpired := by
  have h1 : verify (.tok (generateRefreshToken cfg iat uid email)) cfg.jwtSecret now
      = .error .signatureInvalid := by
    simp [verify, generateRefreshToken, Ne.symm hne]
  have h2 : verify (.tok (generateAccessToken cfg iat uid email)) cfg.jwtRefreshSecret now
      = .error .signatureInvalid := by
    simp [verify, generateAccessToken, hne]
  refine ⟨h1, ?_, h2, ?_⟩
  · simp [validateToken, extractBearer, hsplit, hs, hdec, h1]
  · simp [refresh, h2]

/-- Claim C7 witness at `cfg0` (secrets `asec` ≠ `rsec`), presenting `t0` to the
guard and the corresponding access token to renew, both at time 3. -/
theorem cross_key_class_rejection_witness :
    cfg0.jwtSecret ≠ cfg0.jwtRefreshSecret
    ∧ (verify (.tok (generateRefreshToken cfg0 0 1 "a@x.com")) cfg0.jwtSecret 3
        = .error .signatureInvalid
       ∧ validateToken decodeR cfg0.jwtSecret 3 (some "Bearer rtk")
        = .error .credentialInvalid
       ∧ verify (.tok (generateAccessToken cfg0 0 1 "a@x.com")) cfg0.jwtRefreshSecret 3
        = .error .signatureInvalid
       ∧ refresh cfg0 db0 (some (.tok (generateAccessToken cfg0 0 1 "a@x.com"))) 3
        = .error .invalidOrExpired) :=
  ⟨by decide,
   cross_key_class_rejection cfg0 (by decide) db0 3 0 1 "a@x.com" decodeR
     "Bearer rtk" "rtk" (by decide) (by decide) rfl⟩

/-- Claim C8: terminate (logout) succeeds on every presented value — well-formed,
tampered, or malformed — replying 200 `Logout successful`; it performs no
cryptographic verification (the embedding takes no secret and no clock), and
it is idempotent: terminating twice leaves the same store as terminating
once. -/
theorem logout_total_idempotent (db : RefreshStore) (v : Cred) :
    logout db (some v) = .ok ("Logout successful", deleteToken db v)
    ∧ logout (deleteToken db v) (some v) = .ok ("Logout successful", deleteToken db v)
    ∧ deleteToken (deleteToken db v) v = deleteToken db v := by
  refine ⟨rfl, ?_, deleteToken_idem db v⟩
  simp [logout, deleteToken_idem]

/-- Claim C9: an unknown email and a known email with a non-matching password
produce the identical caller-visible response: 401, `Invalid credentials`. -/
theorem login_failure_indistinguishable (compare : String → String → Bool)
    (cfg : Config) (now : Nat) (users : Users) (db : RefreshStore) (p : Bool)
    (e1 pw1 e2 pw2 : String) (u : User)
    (h1 : e1 ≠ "") (h2 : pw1 ≠ "") (h3 : e2 ≠ "") (h4 : pw2 ≠ "")
    (hnone : findByEmail users e1 = none)
    (hfound : findByEmail users e2 = some u)
    (hbad : compare pw2 u.password = false) :
    login compare cfg now users db p (some e1) (some pw1) = .error .invalidCredentials
    ∧ login compare cfg now users db p (some e2) (some pw2) = .error .invalidCredentials
    ∧ LoginError.status .invalidCredentials = 401
    ∧ LoginError.message .invalidCredentials = "Invalid credentials" := by
  refine ⟨?_, ?_, rfl, rfl⟩
  · simp [login, h1, h2, hnone]
  · simp [login, h3, h4, hfound, hbad]

/-- Claim C9 witness: unknown email `z@x.com` versus wrong password for `u0`. -/
theorem login_failure_indistinguishable_witness :
    login compareEq cfg0 0 users0 [] true (some "z@x.com") (some "pw")
      = .error .invalidCredentials
    ∧ login compareEq cfg0 0 users0 [] true (some "a@x.com") (some "wrong")
      = .error .invalidCredentials :=
  ⟨(login_failure_indistinguishable compareEq cfg0 0 users0 [] true
      "z@x.com" "pw" "a@x.com" "wrong" u0 (by decide) (by decide) (by decide)
      (by decide) (by decide) (by decide) (by decide)).1,
   (login_failure_indistinguishable compareEq cfg0 0 users0 [] true
      "z@x.com" "pw" "a@x.com" "wrong" u0 (by decide) (by decide) (by decide)
      (by decide) (by decide) (by decide) (by decide)).2.1⟩

/-- Claim C10: each successful issuance (login or signup) appends one new Refresh
Record, preserving every earlier record — so several refresh credentials for
the same subject can be simultaneously present — and terminate deletes
exactly the rows whose credential value equals the presented value, leaving
records with any other value untouched. -/
theorem issuance_appends_revoke_selective
    (compare : String → String → Bool) (hash : String → String) (cfg : Config)
    (now nextId : Nat) (users users2 : Users) (db db2 db3 : RefreshStore)
    (p p2 : Bool) (email password email2 password2 fn ln : Option String)
    (r s : IssueOk)
    (hlogin : login compare cfg now users db p email password = .ok r)
    (hsignup : signup hash cfg now nextId users2 db2 p2 email2 password2 fn ln = .ok s)
    (uid uid' : Nat) (v w : Cred) :
    r.db = insertToken db r.user.id (.tok r.refreshToken)
    ∧ s.db = insertToken db2 s.user.id (.tok s.refreshToken)
    ∧ (tokenExists db3 w uid' = true → tokenExists (insertToken db3 uid v) w uid' = true)
    ∧ tokenExists (insertToken db3 uid v) v uid = true
    ∧ (w ≠ v → tokenExists (deleteToken db3 v) w uid' = tokenExists db3 w uid')
    ∧ tokenExists (deleteToken db3 v) v uid' = false := by
  obtain ⟨e, pw, u, -, -, -, -, -, hr⟩ :=
    login_ok_inv compare cfg now users db p email password r hlogin
  obtain ⟨e2, pw2, fn2, ln2, -, -, -, -, -, -, hsr⟩ :=
    signup_ok_inv hash cfg now nextId users2 db2 p2 email2 password2 fn ln s hsignup
  subst hr; subst hsr
  exact ⟨rfl, rfl, tokenExists_insertToken_mono db3 uid uid' v w,
         tokenExists_insertToken_self db3 uid v,
         tokenExists_deleteToken_ne db3 v w uid',
         tokenExists_deleteToken db3 v uid'⟩

/-- Claim C10 witness: log `u0` in and sign subject 2 up, then insert and delete a
foreign value `raw x` around `db0`, checking that the record of `t0` is untouched. -/
theorem issuance_appends_revoke_selective_witness :
    login compareEq cfg0 0 users0 [] true (some "a@x.com") (some "hpw") = .ok issue0
    ∧ signup hash0 cfg0 0 2 [] [] true (some "b@x.com") (some "pw") (some "Bea")
        (some "K") = .ok signup0
    ∧ issue0.db = insertToken [] issue0.user.id (.tok issue0.refreshToken)
    ∧ signup0.db = insertToken [] signup0.user.id (.tok signup0.refreshToken)
    ∧ tokenExists (insertToken db0 2 (.raw "x")) (.tok t0) 1 = true
    ∧ tokenExists (insertToken db0 2 (.raw "x")) (.raw "x") 2 = true
    ∧ tokenExists (deleteToken db0 (.raw "x")) (.tok t0) 1 = tokenExists db0 (.tok t0) 1
    ∧ tokenExists (deleteToken db0 (.raw "x")) (.raw "x") 1 = false := by
  have hlogin : login compareEq cfg0 0 users0 [] true (some "a@x.com") (some "hpw")
      = .ok issue0 := by
    simp [login, findByEmail, users0, u0, compareEq, issue0, generateAccessToken,
          generateRefreshToken, insertToken, cfg0, a0, t0, db0]
  have hsignup : signup hash0 cfg0 0 2 [] [] true (some "b@x.com") (some "pw")
      (some "Bea") (some "K") = .ok signup0 := by
    simp [signup, findByEmail, hash0, signup0, generateAccessToken,
          generateRefreshToken, insertToken, cfg0]
  have h := issuance_appends_revoke_selective compareEq hash0 cfg0 0 2 users0 []
    [] [] db0 true true (some "a@x.com") (some "hpw") (some "b@x.com") (some "pw")
    (some "Bea") (some "K") issue0 signup0 hlogin hsignup 2 1 (.raw "x") (.tok t0)
  exact ⟨hlogin, hsignup, h.1, h.2.1, h.2.2.1 (by decide), h.2.2.2.1,
         h.2.2.2.2.1 (by decide), h.2.2.2.2.2⟩

end BankingAuth
